import Mathlib

/-!
Kibana alert resource (`es/resource_elasticsearch_kibana_alert.go`).

A shallow embedding of the Terraform resource that manages a Kibana alert:
the four CRUD callbacks, the version gate they share, the mapping between
the framework's attribute store and the typed alert value, and the three
HTTP helpers.  Go panics, returned errors, the resource's stored identity
and the sequence of network round-trips are all explicit.
-/

namespace KibanaAlert

set_option linter.unusedVariables false

/-! ## Values of the collaborating libraries -/

/-- Release version as compared by `hashicorp/go-version`: numeric segments,
compared lexicographically (pre-release tags are not modelled). -/
structure Version where
  major : Nat
  minor : Nat
  patch : Nat
  deriving DecidableEq, Repr

/-- Go `(*Version).LessThan`. -/
def Version.LessThan (v o : Version) : Bool :=
  v.major < o.major ||
    (v.major == o.major && (v.minor < o.minor || (v.minor == o.minor && v.patch < o.patch)))

/-- Go `var minimalKibanaVersion, _ = version.NewVersion("7.11.0")`. -/
def minimalKibanaVersion : Version := ⟨7, 11, 0⟩

/-- Go `error` values that can flow through this file.  Errors coming from
collaborators are `elastic` (an `*elastic.Error`, which carries the HTTP
status) or `other`; every `fmt.Errorf` call site of the file has its own
constructor holding the call's arguments. -/
inductive GoError where
  /-- Go `*elastic.Error` with its `Status`. -/
  | elastic (status : Nat) (reason : String)
  /-- any other error value produced outside this file. -/
  | other (msg : String)
  /-- Go `fmt.Errorf("Kibana Alert endpoint only available from <product> >= 7.11, got version %s", v.String())`. -/
  | unsupportedVersion (product : String) (got : Version)
  /-- Go `fmt.Errorf("Kibana Alert endpoint only available from <product> >= 7.11, got version < 7.0.0")`. -/
  | clientTypeUnsupported (product : String)
  /-- Go `fmt.Errorf("error building URL path for alert: %+v", err)`. -/
  | urlPath (cause : GoError)
  /-- Go `fmt.Errorf("Body Error: %s", err)`. -/
  | bodyError (cause : GoError)
  /-- Go `fmt.Errorf("error unmarshalling monitor body: %+v: %+v", err, body)`. -/
  | unmarshal (cause : GoError) (body : String)
  deriving DecidableEq, Repr

/-- Go `elastic7.IsNotFound`: true exactly for an `*elastic.Error` whose status is
404; an error built by `fmt.Errorf` carries no status. -/
def IsNotFound : GoError → Bool
  | .elastic status _ => status == 404
  | _ => false

/-- Result of running Go code that may panic instead of returning. -/
inductive Outcome (α : Type) where
  | ret (a : α)
  | panic (msg : String)

/-- Go `kibana.AlertSchedule`. -/
structure AlertSchedule where
  Interval : String
  deriving DecidableEq, Repr

mutual
/-- Dynamic value behind a Go `interface{}`, as handed out by `d.Get` and
accepted by `d.Set`; the constructor is the dynamic type. -/
inductive Value where
  | nil
  | str (s : String)
  | bool (b : Bool)
  | num (n : Int)
  /-- Go `[]string`. -/
  | strs (xs : List String)
  /-- Go `[]interface{}`. -/
  | list (xs : List Value)
  /-- Go `*schema.Set`, given by the result of its `List()`. -/
  | set (xs : List Value)
  /-- Go `map[string]interface{}`. -/
  | map (kvs : List (String × Value))
  /-- Go `kibana.AlertSchedule`. -/
  | schedule (s : AlertSchedule)
  /-- Go `[]kibana.AlertAction`. -/
  | actions (xs : List AlertAction)
/-- Modelled from the spec: `kibana.AlertAction`, whose declaration is not in
the embedded files: group, id, action type id and a params mapping. -/
inductive AlertAction where
  | mk (Group ID ActionTypeID : String) (Params : List (String × Value))
end

/-- Modelled from the spec: `kibana.Alert`, whose declaration is not in the
embedded files; the fields are those the resource reads and writes. -/
structure Alert where
  Name : String
  Tags : List String
  AlertTypeID : String
  Schedule : AlertSchedule
  Throttle : String
  NotifyWhen : String
  Enabled : Bool
  Consumer : String
  Params : List (String × Value)
  Actions : List AlertAction

/-- Go `kibana.Alert{}`. -/
def Alert.zero : Alert :=
  ⟨"", [], "", ⟨""⟩, "", "", false, "", [], []⟩

/-! ## `uritemplates.Expand` -/

/-- Characters left alone by the template library's escaping. -/
def unreserved (c : Char) : Bool :=
  c.isAlphanum || c == '-' || c == '.' || c == '_' || c == '~'

/-- Upper-case hexadecimal digit. -/
def hexDigit (n : Nat) : Char :=
  if n < 10 then Char.ofNat (48 + n) else Char.ofNat (55 + n)

/-- Percent-encoding of one byte. -/
def pctEncode (b : Nat) : List Char :=
  ['%', hexDigit (b / 16), hexDigit (b % 16)]

/-- Escaping of a substituted value: every byte outside the unreserved set is
percent-encoded. -/
def escape (s : String) : String :=
  String.mk (s.toList.flatMap fun c =>
    if unreserved c then [c] else (String.utf8EncodeChar c).flatMap fun b => pctEncode b.toNat)

/-- Template scanner: `cur` is `none` in literal text and holds the reversed
variable name read so far inside an expression. -/
def expandFrom (vars : List (String × String)) :
    Option (List Char) → List Char → Except GoError (List Char)
  | none, [] => .ok []
  | some _, [] => .error (.other "uritemplates: unterminated expression")
  | none, c :: cs =>
    if c = '{' then expandFrom vars (some []) cs
    else if c = '}' then .error (.other "uritemplates: unexpected closing brace")
    else match expandFrom vars none cs with
      | .ok out => .ok (c :: out)
      | .error e => .error e
  | some nm, c :: cs =>
    if c = '}' then
      match expandFrom vars none cs with
      | .ok out => .ok ((escape ((vars.lookup (String.mk nm.reverse)).getD "")).toList ++ out)
      | .error e => .error e
    else expandFrom vars (some (c :: nm)) cs

/-- Go `uritemplates.Expand` for templates made of literal text and simple
`{name}` expressions, the only kind this file uses. -/
def uritemplatesExpand (template : String) (vars : List (String × String)) :
    Except GoError String :=
  match expandFrom vars none template.toList with
  | .ok out => .ok (String.mk out)
  | .error e => .error e

/-! ## The client, the provider configuration and the attribute store -/

/-- Go `elastic7.PerformRequestOptions`, with the three members this file sets. -/
structure PerformRequestOptions where
  Method : String
  Path : String
  Body : String
  deriving DecidableEq, Repr

/-- Go `elastic7.Response`; only `Body` is read. -/
structure Response where
  Body : String
  deriving DecidableEq, Repr

/-- An `*elastic7.Client` seen from this file: what the version fetch
(`elastic7GetVersion`, one round-trip to the version endpoint) returns, and
what `PerformRequest` returns for a request, namely a response pointer that
may be nil and an error that may be nil. -/
structure Elastic7Client where
  version : Except GoError Version
  PerformRequest : PerformRequestOptions → Option Response × Option GoError

/-- Dynamic type of the client handle: the `*elastic7.Client` case of the type
switch, or any other variant (the `default` case). -/
inductive Client where
  | elastic7 (client : Elastic7Client)
  | other

/-- Go `*ProviderConf` (the `meta` argument), reduced to what `getKibanaClient`
makes of it. -/
structure ProviderConf where
  kibanaClient : Except GoError Client

/-- Go `getKibanaClient(meta.(*ProviderConf))`. -/
def getKibanaClient (conf : ProviderConf) : Except GoError Client :=
  conf.kibanaClient

/-- Go `elastic7GetVersion(client)`; callers record the round-trip. -/
def elastic7GetVersion (client : Elastic7Client) : Except GoError Version :=
  client.version

/-- One element of the `actions` attribute as the configuration holds it. -/
structure ActionConfig where
  group : String
  id : String
  action_type_id : String
  params : List (String × String)
  deriving DecidableEq, Repr

/-- Pure helpers living outside the embedded files.  The first three are the
per-element expansion of the actions collection and the JSON codec for
`kibana.Alert`: `jsonUnmarshal body` is the alert left in a fresh
`new(kibana.Alert)` by `json.Unmarshal(body, alert)` together with the error
it returns.  The last two belong to the plugin framework: `hashOrder xs` is
the order in which a `*schema.Set` built from the strings `xs` lists them
(by hash code, duplicates merged), and `flattenActions` is what the framework
makes of a `[]kibana.AlertAction` handed to `d.Set`, which depends on the
declaration of that struct. -/
structure Lib where
  expandKibanaActionsList : List Value → Except GoError (List AlertAction)
  jsonMarshal : Alert → Except GoError String
  jsonUnmarshal : String → Alert × Option GoError
  hashOrder : List String → List String
  flattenActions : List AlertAction → Except GoError (List ActionConfig)

/-- One network round-trip. -/
inductive Event where
  | versionCheck
  | request (opts : PerformRequestOptions)
  deriving DecidableEq, Repr

/-- Attribute types of the plugin framework used by the resource's schema. -/
inductive ValueType where
  | TypeBool
  | TypeString
  | TypeList
  | TypeMap
  | TypeSet
  deriving DecidableEq, Repr

/-- The `Schema` map returned by `resourceElasticsearchKibanaAlert`: the type
declared for each attribute. -/
def schemaType (key : String) : Option ValueType :=
  if key = "name" then some .TypeString
  else if key = "space_id" then some .TypeString
  else if key = "tags" then some .TypeSet
  else if key = "alert_type_id" then some .TypeString
  else if key = "schedule" then some .TypeList
  else if key = "throttle" then some .TypeString
  else if key = "notify_when" then some .TypeString
  else if key = "enabled" then some .TypeBool
  else if key = "consumer" then some .TypeString
  else if key = "params" then some .TypeMap
  else if key = "actions" then some .TypeSet
  else none

/-- Go `*schema.ResourceData` for this schema: the stored identity and one
field per declared attribute.  `tags` and `actions` list the elements of a
set in the order of `List()`; `schedule` lists the `interval` of each entry of
the list; `params` is a map whose values are strings. -/
structure ResourceData where
  id : String
  name : String
  space_id : String
  tags : List String
  alert_type_id : String
  schedule : List String
  throttle : String
  notify_when : String
  enabled : Bool
  consumer : String
  params : List (String × String)
  actions : List ActionConfig

/-- A `map[string]interface{}` whose values are strings. -/
def stringMap (m : List (String × String)) : Value :=
  .map (m.map fun kv => (kv.1, .str kv.2))

/-- One entry of the `schedule` list: a map with the key `interval`. -/
def scheduleEntry (interval : String) : Value :=
  .map [("interval", .str interval)]

/-- One element of the `actions` set: a map with the four declared keys. -/
def ActionConfig.toValue (a : ActionConfig) : Value :=
  .map [("action_type_id", .str a.action_type_id), ("group", .str a.group),
    ("id", .str a.id), ("params", stringMap a.params)]

/-- Go `d.Id()`. -/
def ResourceData.Id (d : ResourceData) : String := d.id

/-- Go `d.SetId(v)`. -/
def ResourceData.SetId (d : ResourceData) (v : String) : ResourceData :=
  { d with id := v }

/-- Go `d.Get(key)`.  The dynamic type of the result is fixed by the schema: a
`string` for `TypeString`, a `bool` for `TypeBool`, a `[]interface{}` for
`TypeList`, a `*schema.Set` for `TypeSet`, a `map[string]interface{}` for
`TypeMap`, and nil for a key the schema does not declare. -/
def ResourceData.Get (d : ResourceData) (key : String) : Value :=
  if key = "name" then .str d.name
  else if key = "space_id" then .str d.space_id
  else if key = "tags" then .set (d.tags.map .str)
  else if key = "alert_type_id" then .str d.alert_type_id
  else if key = "schedule" then .list (d.schedule.map scheduleEntry)
  else if key = "throttle" then .str d.throttle
  else if key = "notify_when" then .str d.notify_when
  else if key = "enabled" then .bool d.enabled
  else if key = "consumer" then .str d.consumer
  else if key = "params" then stringMap d.params
  else if key = "actions" then .set (d.actions.map ActionConfig.toValue)
  else .nil

/-- Name of the dynamic Go type of a value. -/
def Value.goType : Value → String
  | .nil => "nil"
  | .str _ => "string"
  | .bool _ => "bool"
  | .num _ => "int"
  | .strs _ => "[]string"
  | .list _ => "[]interface {}"
  | .set _ => "*schema.Set"
  | .map _ => "map[string]interface {}"
  | .schedule _ => "kibana.AlertSchedule"
  | .actions _ => "[]kibana.AlertAction"

/-- Name of the dynamic Go type `d.Get` yields for an attribute type. -/
def ValueType.goType : ValueType → String
  | .TypeBool => "bool"
  | .TypeString => "string"
  | .TypeList => "[]interface {}"
  | .TypeMap => "map[string]interface {}"
  | .TypeSet => "*schema.Set"

/-- The error `d.Set` returns when a value cannot be decoded for an attribute. -/
def setError (key : String) (value : Value) : GoError :=
  .other (key ++ ": cannot decode a value of type " ++ value.goType)

/-- Elements that are all strings. -/
def stringsOf : List Value → Option (List String)
  | [] => some []
  | .str s :: rest =>
    match stringsOf rest with
    | some ss => some (s :: ss)
    | none => none
  | _ :: _ => none

/-- Entries of a map whose values are all strings. -/
def stringEntriesOf : List (String × Value) → Option (List (String × String))
  | [] => some []
  | (k, .str s) :: rest =>
    match stringEntriesOf rest with
    | some ss => some ((k, s) :: ss)
    | none => none
  | _ :: _ => none

/-- Schedule entries: maps whose only key is `interval`, bound to a string. -/
def intervalsOf : List Value → Option (List String)
  | [] => some []
  | .map [(k, .str i)] :: rest =>
    if k = "interval" then
      match intervalsOf rest with
      | some is => some (i :: is)
      | none => none
    else none
  | _ :: _ => none

/-- One action element: a map with string `group`, `id`, `action_type_id` and a
`params` map of strings. -/
def actionOf (v : Value) : Option ActionConfig :=
  match v with
  | .map m =>
    match m.lookup "group", m.lookup "id", m.lookup "action_type_id", m.lookup "params" with
    | some (.str g), some (.str i), some (.str t), some (.map ps) =>
      match stringEntriesOf ps with
      | some ps => some ⟨g, i, t, ps⟩
      | none => none
    | _, _, _, _ => none
  | _ => none

/-- Action elements of a collection. -/
def actionsOf : List Value → Option (List ActionConfig)
  | [] => some []
  | v :: rest =>
    match actionOf v, actionsOf rest with
    | some a, some as => some (a :: as)
    | _, _ => none

/-- Writing of a `TypeString` attribute. -/
def ResourceData.putString (d : ResourceData) (key s : String) : ResourceData :=
  if key = "name" then { d with name := s }
  else if key = "space_id" then { d with space_id := s }
  else if key = "alert_type_id" then { d with alert_type_id := s }
  else if key = "throttle" then { d with throttle := s }
  else if key = "notify_when" then { d with notify_when := s }
  else if key = "consumer" then { d with consumer := s }
  else d

/-- Go `d.Set(key, value)`: the framework decodes the value against the type
the schema declares for the key and returns an error, leaving the attribute
as it was, when it cannot.  A `TypeString` attribute takes a string, a
`TypeBool` attribute a bool, the `TypeList` attribute `schedule` a slice of
entries (a struct such as `kibana.AlertSchedule` is not a slice and is
rejected), a `TypeSet` attribute a set or a slice of its elements, the
`TypeMap` attribute a map of strings; nil clears the attribute; a key the
schema does not declare is an error. -/
def ResourceData.Set (lib : Lib) (d : ResourceData) (key : String) (value : Value) :
    ResourceData × Option GoError :=
  match schemaType key with
  | none => (d, some (.other ("Invalid address to set: " ++ key)))
  | some .TypeString =>
    match value with
    | .str s => (d.putString key s, none)
    | .nil => (d.putString key "", none)
    | _ => (d, some (setError key value))
  | some .TypeBool =>
    match value with
    | .bool b => ({ d with enabled := b }, none)
    | .nil => ({ d with enabled := false }, none)
    | _ => (d, some (setError key value))
  | some .TypeList =>
    match value with
    | .list xs =>
      match intervalsOf xs with
      | some is => ({ d with schedule := is }, none)
      | none => (d, some (setError key value))
    | .nil => ({ d with schedule := [] }, none)
    | _ => (d, some (setError key value))
  | some .TypeMap =>
    match value with
    | .map m =>
      match stringEntriesOf m with
      | some ps => ({ d with params := ps }, none)
      | none => (d, some (setError key value))
    | .nil => ({ d with params := [] }, none)
    | _ => (d, some (setError key value))
  | some .TypeSet =>
    if key = "tags" then
      match value with
      | .set xs =>
        match stringsOf xs with
        | some ss => ({ d with tags := ss }, none)
        | none => (d, some (setError key value))
      | .list xs =>
        match stringsOf xs with
        | some ss => ({ d with tags := lib.hashOrder ss }, none)
        | none => (d, some (setError key value))
      | .strs ss => ({ d with tags := lib.hashOrder ss }, none)
      | .nil => ({ d with tags := [] }, none)
      | _ => (d, some (setError key value))
    else
      match value with
      | .set xs =>
        match actionsOf xs with
        | some as => ({ d with actions := as }, none)
        | none => (d, some (setError key value))
      | .list xs =>
        match actionsOf xs with
        | some as => ({ d with actions := as }, none)
        | none => (d, some (setError key value))
      | .actions xs =>
        match lib.flattenActions xs with
        | .ok as => ({ d with actions := as }, none)
        | .error e => (d, some e)
      | .nil => ({ d with actions := [] }, none)
      | _ => (d, some (setError key value))

/-- Modelled from the spec: `resourceDataSetter`, whose declaration is not in
the embedded files.  The reverse direction hands each field verbatim, with no
transformation, to `d.Set`; `err` is the first error `d.Set` returned, which
Read returns as `ds.err`. -/
structure resourceDataSetter where
  d : ResourceData
  err : Option GoError

/-- Modelled from the spec: `ds.set(key, value)`, which does nothing once an
error has been recorded and otherwise records what `d.Set(key, value)`
returns. -/
def resourceDataSetter.set (lib : Lib) (ds : resourceDataSetter) (key : String)
    (value : Value) : resourceDataSetter :=
  match ds.err with
  | some _ => ds
  | none =>
    match ds.d.Set lib key value with
    | (d, err) => { d := d, err := err }

/-- What one callback did: how it ended, the resource data it leaves behind
and the round-trips it made, in order. -/
structure Run where
  result : Outcome (Option GoError)
  d : ResourceData
  trace : List Event

/-! ## Go run-time checks -/

/-- Sequencing of code that may panic. -/
def Outcome.bind {α β : Type} (x : Outcome α) (f : α → Outcome β) : Outcome β :=
  match x with
  | .ret a => f a
  | .panic m => .panic m

instance : Monad Outcome where
  pure := Outcome.ret
  bind := Outcome.bind

/-- The panic of a failed type assertion on an `interface{}`. -/
def conversionPanic (v : Value) (want : String) : String :=
  "interface conversion: interface {} is " ++ v.goType ++ ", not " ++ want

/-- Type assertion `v.(string)`. -/
def Value.asString (v : Value) : Outcome String :=
  match v with
  | .str s => .ret s
  | _ => .panic (conversionPanic v "string")

/-- Type assertion `v.(bool)`. -/
def Value.asBool (v : Value) : Outcome Bool :=
  match v with
  | .bool b => .ret b
  | _ => .panic (conversionPanic v "bool")

/-- Type assertion `v.([]string)`. -/
def Value.asStrings (v : Value) : Outcome (List String) :=
  match v with
  | .strs xs => .ret xs
  | _ => .panic (conversionPanic v "[]string")

/-- Type assertion `v.(map[string]interface{})`. -/
def Value.asMap (v : Value) : Outcome (List (String × Value)) :=
  match v with
  | .map kvs => .ret kvs
  | _ => .panic (conversionPanic v "map[string]interface {}")

/-- Type assertion `v.(*schema.Set)` followed by `.List()`. -/
def Value.asSetList (v : Value) : Outcome (List Value) :=
  match v with
  | .set xs => .ret xs
  | _ => .panic (conversionPanic v "*schema.Set")

/-- Slice indexing `xs[0]`. -/
def index0 : List Value → Outcome Value
  | x :: _ => .ret x
  | [] => .panic "runtime error: index out of range [0] with length 0"

/-- Map indexing `m[key]`: the zero value (a nil interface) when absent. -/
def mapIndex (m : List (String × Value)) (key : String) : Value :=
  (m.lookup key).getD .nil

/-! ## HTTP operations -/

/-- Embeds `kibanaGetAlert(client, id, space_id)`: the returned pair (or the panic)
and the requests issued. -/
def kibanaGetAlert (lib : Lib) (client : Elastic7Client) (id space_id : String) :
    Outcome (Alert × Option GoError) × List Event :=
  match uritemplatesExpand "/api/alerts/alert/{id}" [("id", id)] with
  | .error err => (.ret (Alert.zero, some (.urlPath err)), [])
  | .ok path =>
    let opts : PerformRequestOptions := ⟨"GET", path, ""⟩
    match client.PerformRequest opts with
    | (none, _) =>
      -- `body = res.Body` with `res == nil`
      (.panic "runtime error: invalid memory address or nil pointer dereference",
        [.request opts])
    | (some res, err) =>
      let body := res.Body
      match err with
      | some err => (.ret (Alert.zero, some err), [.request opts])
      | none =>
        match lib.jsonUnmarshal body with
        | (alert, some err) => (.ret (alert, some (.unmarshal err body)), [.request opts])
        | (alert, none) => (.ret (alert, none), [.request opts])

/-- Embeds `kibanaPostAlert(client, id, space_id, alert)`. -/
def kibanaPostAlert (lib : Lib) (client : Elastic7Client) (id space_id : String)
    (alert : Alert) : Option GoError × List Event :=
  match uritemplatesExpand "api/alerts/alert" [("id", id)] with
  | .error err => (some (.urlPath err), [])
  | .ok path =>
    match lib.jsonMarshal alert with
    | .error err => (some (.bodyError err), [])
    | .ok body =>
      let opts : PerformRequestOptions := ⟨"POST", path, body⟩
      match (client.PerformRequest opts).2 with
      | some err => (some err, [.request opts])
      | none => (none, [.request opts])

/-- Embeds `kibanaDeleteAlert(client, id, space_id)`. -/
def kibanaDeleteAlert (client : Elastic7Client) (id space_id : String) :
    Option GoError × List Event :=
  match uritemplatesExpand "/api/alerts/alert/{id}" [("id", id)] with
  | .error err => (some (.urlPath err), [])
  | .ok path =>
    let opts : PerformRequestOptions := ⟨"DELETE", path, ""⟩
    match (client.PerformRequest opts).2 with
    | some err => (some err, [.request opts])
    | none => (none, [.request opts])

/-! ## Attribute mapping -/

/-- Forward direction (configuration to alert): the statements of
`resourceElasticsearchPostKibanaAlert` from `alertSchedule := ...` to the
`kibana.Alert{...}` literal.  `.ret (.error err)` is the `return err` after
`expandKibanaActionsList`. -/
def forwardMapping (lib : Lib) (d : ResourceData) : Outcome (Except GoError Alert) := do
  let scheduleList ← (d.Get "schedule").asSetList
  let first ← index0 scheduleList
  let alertSchedule ← first.asMap
  let interval ← (mapIndex alertSchedule "interval").asString
  let schedule : AlertSchedule := { Interval := interval }
  let actionsList ← (d.Get "actions").asSetList
  match lib.expandKibanaActionsList actionsList with
  | .error err => return .error err
  | .ok actions =>
    let name ← (d.Get "name").asString
    let tags ← (d.Get "tags").asStrings
    let alertTypeID ← (d.Get "alert_type_id").asString
    let throttle ← (d.Get "throttle").asString
    let notifyWhen ← (d.Get "notify_when").asString
    let enabled ← (d.Get "enabled").asBool
    let consumer ← (d.Get "consumer").asString
    let params ← (d.Get "params").asMap
    return .ok {
      Name := name
      Tags := tags
      AlertTypeID := alertTypeID
      Schedule := schedule
      Throttle := throttle
      NotifyWhen := notifyWhen
      Enabled := enabled
      Consumer := consumer
      Params := params
      Actions := actions }

/-- Reverse direction (alert to configuration): the `ds.set` block that ends
`resourceElasticsearchKibanaAlertRead`. -/
def reverseMapping (lib : Lib) (d : ResourceData) (alert : Alert) : resourceDataSetter :=
  let ds : resourceDataSetter := { d := d, err := none }
  let ds := ds.set lib "name" (.str alert.Name)
  let ds := ds.set lib "tags" (.strs alert.Tags)
  let ds := ds.set lib "alert_type_id" (.str alert.AlertTypeID)
  let ds := ds.set lib "schedule" (.schedule alert.Schedule)
  let ds := ds.set lib "throttle" (.str alert.Throttle)
  let ds := ds.set lib "notify_when" (.str alert.NotifyWhen)
  let ds := ds.set lib "enabled" (.bool alert.Enabled)
  let ds := ds.set lib "consumer" (.str alert.Consumer)
  let ds := ds.set lib "params" (.map alert.Params)
  let ds := ds.set lib "actions" (.actions alert.Actions)
  ds

/-! ## The CRUD callbacks -/

/-- Embeds `resourceElasticsearchPostKibanaAlert(d, meta)`. -/
def resourceElasticsearchPostKibanaAlert (lib : Lib) (d : ResourceData)
    (conf : ProviderConf) : Run :=
  let id := d.Id
  match (d.Get "space_id").asString with
  | .panic m => ⟨.panic m, d, []⟩
  | .ret space_id =>
    match getKibanaClient conf with
    | .error err => ⟨.ret (some err), d, []⟩
    | .ok esClient =>
      match forwardMapping lib d with
      | .panic m => ⟨.panic m, d, []⟩
      | .ret (.error err) => ⟨.ret (some err), d, []⟩
      | .ret (.ok alert) =>
        match esClient with
        | .elastic7 client =>
          match elastic7GetVersion client with
          | .error err => ⟨.ret (some err), d, [.versionCheck]⟩
          | .ok elasticVersion =>
            if elasticVersion.LessThan minimalKibanaVersion then
              ⟨.ret (some (.unsupportedVersion "ElasticSearch" elasticVersion)), d,
                [.versionCheck]⟩
            else
              match kibanaPostAlert lib client id space_id alert with
              | (err, t) => ⟨.ret err, d, .versionCheck :: t⟩
        | .other => ⟨.ret (some (.clientTypeUnsupported "ElasticSearch")), d, []⟩

/-- Embeds `resourceElasticsearchPutKibanaAlert(d, meta)`. -/
def resourceElasticsearchPutKibanaAlert (d : ResourceData) (_conf : ProviderConf) : Run :=
  ⟨.ret none, d, []⟩

/-- Embeds `resourceElasticsearchKibanaAlertCreate(d, meta)`. -/
def resourceElasticsearchKibanaAlertCreate (lib : Lib) (d : ResourceData)
    (conf : ProviderConf) : Run :=
  let r := resourceElasticsearchPostKibanaAlert lib d conf
  match r.result with
  | .panic m => ⟨.panic m, r.d, r.trace⟩
  | .ret (some err) => ⟨.ret (some err), r.d, r.trace⟩
  | .ret none =>
    -- d.SetId(d.Get("name").(string)) // todo
    ⟨.ret none, r.d, r.trace⟩

/-- The type switch of `resourceElasticsearchKibanaAlertRead`: the values of
`alert` and `err` after it (or the panic) and the round-trips made. -/
def readSwitch (lib : Lib) (esClient : Client) (id space_id : String) :
    Outcome (Alert × Option GoError) × List Event :=
  match esClient with
  | .elastic7 client =>
    match elastic7GetVersion client with
    | .error err => (.ret (Alert.zero, some err), [.versionCheck])
    | .ok elasticVersion =>
      if elasticVersion.LessThan minimalKibanaVersion then
        (.ret (Alert.zero, some (.unsupportedVersion "Kibana" elasticVersion)),
          [.versionCheck])
      else
        match kibanaGetAlert lib client id space_id with
        | (out, t) => (out, .versionCheck :: t)
  | .other => (.ret (Alert.zero, some (.clientTypeUnsupported "Kibana")), [])

/-- Embeds `resourceElasticsearchKibanaAlertRead(d, meta)`. -/
def resourceElasticsearchKibanaAlertRead (lib : Lib) (d : ResourceData)
    (conf : ProviderConf) : Run :=
  let id := d.Id
  match (d.Get "space_id").asString with
  | .panic m => ⟨.panic m, d, []⟩
  | .ret space_id =>
    match getKibanaClient conf with
    | .error err => ⟨.ret (some err), d, []⟩
    | .ok esClient =>
      match readSwitch lib esClient id space_id with
      | (.panic m, t) => ⟨.panic m, d, t⟩
      | (.ret (_, some err), t) =>
        if IsNotFound err then ⟨.ret none, d.SetId "", t⟩
        else ⟨.ret (some err), d, t⟩
      | (.ret (alert, none), t) =>
        let ds := reverseMapping lib d alert
        ⟨.ret ds.err, ds.d, t⟩

/-- Embeds `resourceElasticsearchKibanaAlertUpdate(d, meta)`. -/
def resourceElasticsearchKibanaAlertUpdate (d : ResourceData) (conf : ProviderConf) : Run :=
  resourceElasticsearchPutKibanaAlert d conf

/-- Embeds `resourceElasticsearchKibanaAlertDelete(d, meta)`. -/
def resourceElasticsearchKibanaAlertDelete (d : ResourceData) (conf : ProviderConf) : Run :=
  let id := d.Id
  match (d.Get "space_id").asString with
  | .panic m => ⟨.panic m, d, []⟩
  | .ret space_id =>
    match getKibanaClient conf with
    | .error err => ⟨.ret (some err), d, []⟩
    | .ok esClient =>
      match esClient with
      | .elastic7 client =>
        match elastic7GetVersion client with
        | .error err => ⟨.ret (some err), d, [.versionCheck]⟩
        | .ok elasticVersion =>
          if elasticVersion.LessThan minimalKibanaVersion then
            ⟨.ret (some (.unsupportedVersion "ElasticSearch" elasticVersion)), d,
              [.versionCheck]⟩
          else
            match kibanaDeleteAlert client id space_id with
            | (some err, t) => ⟨.ret (some err), d, .versionCheck :: t⟩
            | (none, t) => ⟨.ret none, d.SetId "", .versionCheck :: t⟩
      | .other => ⟨.ret (some (.clientTypeUnsupported "ElasticSearch")), d, []⟩

/-- The requests a run sent to the alert endpoints. -/
def alertRequests : List Event → List PerformRequestOptions
  | [] => []
  | .versionCheck :: t => alertRequests t
  | .request opts :: t => opts :: alertRequests t

/-- Whether a run ended by returning the unsupported-version error of the gate. -/
def Run.unsupportedVersion (r : Run) : Bool :=
  match r.result with
  | .ret (some (.unsupportedVersion _ _)) => true
  | _ => false

/-! ## Concrete collaborators used to exercise the callbacks -/

/-- An action expander: a map with string `group`, `id`, `action_type_id` and a
map `params` becomes an action, anything else is an error. -/
def sampleExpandAction : Value → Except GoError AlertAction
  | .map m =>
    match mapIndex m "group", mapIndex m "id", mapIndex m "action_type_id",
      mapIndex m "params" with
    | .str g, .str i, .str t, .map ps => .ok (.mk g i t ps)
    | _, _, _, _ => .error (.other "malformed action")
  | _ => .error (.other "malformed action")

/-- Element-by-element expansion, stopping at the first failure. -/
def sampleExpandActions : List Value → Except GoError (List AlertAction)
  | [] => .ok []
  | x :: xs =>
    match sampleExpandAction x with
    | .error e => .error e
    | .ok a =>
      match sampleExpandActions xs with
      | .error e => .error e
      | .ok rest => .ok (a :: rest)

/-- A codec that writes the `name` member only and reads a body back as a
name; sets list their elements in insertion order and action structs are not
decodable. -/
def sampleLib : Lib where
  expandKibanaActionsList := sampleExpandActions
  jsonMarshal := fun a => .ok ("\x7b\"name\":\"" ++ a.Name ++ "\"\x7d")
  jsonUnmarshal := fun body =>
    if body = "" then (Alert.zero, some (.other "unexpected end of JSON input"))
    else ({ Alert.zero with Name := body }, none)
  hashOrder := fun xs => xs.eraseDups
  flattenActions := fun xs =>
    match xs with
    | [] => .ok []
    | _ :: _ => .error (.other "actions: cannot decode a value of type []kibana.AlertAction")

/-- A server at version 7.11.0 that answers every request with an empty object. -/
def healthyServer : Elastic7Client where
  version := .ok ⟨7, 11, 0⟩
  PerformRequest := fun _ => (some ⟨"\x7b\x7d"⟩, none)

/-- A server at version 7.10.2. -/
def oldServer : Elastic7Client where
  version := .ok ⟨7, 10, 2⟩
  PerformRequest := fun _ => (some ⟨"\x7b\x7d"⟩, none)

/-- A server at version 7.11.0 that answers every request with status 404: the
client hands back the response together with an `*elastic.Error`. -/
def missingServer : Elastic7Client where
  version := .ok ⟨7, 11, 0⟩
  PerformRequest := fun _ => (some ⟨"\x7b\x7d"⟩, some (.elastic 404 "Not Found"))

/-- A server at version 7.11.0 whose connection drops on every request: the
client hands back a nil response and a transport error. -/
def unreachableServer : Elastic7Client where
  version := .ok ⟨7, 11, 0⟩
  PerformRequest := fun _ => (none, some (.other "connection refused"))

/-- A server whose version endpoint answers with status 404. -/
def versionlessServer : Elastic7Client where
  version := .error (.elastic 404 "Not Found")
  PerformRequest := fun _ => (some ⟨"\x7b\x7d"⟩, none)

/-- Provider configuration holding an `*elastic7.Client`. -/
def confOf (client : Elastic7Client) : ProviderConf :=
  ⟨.ok (.elastic7 client)⟩

/-- A complete configuration named `terraform-test`, with one schedule entry
and no actions, for a resource that has not been created yet. -/
def sampleData : ResourceData where
  id := ""
  name := "terraform-test"
  space_id := "default"
  tags := ["terraform"]
  alert_type_id := ".index-threshold"
  schedule := ["1m"]
  throttle := "5m"
  notify_when := "onActionGroupChange"
  enabled := true
  consumer := "alerts"
  params := [("index", "logs")]
  actions := []

/-- The same configuration for a resource that exists under the id `alert-1`. -/
def existingData : ResourceData :=
  { sampleData with id := "alert-1" }

/-- The configuration of the acceptance test: only `name` is given, so every
other attribute holds its zero value (`enabled` its default) and the schedule
and actions collections are empty. -/
def testConfigData : ResourceData where
  id := ""
  name := "terraform-test"
  space_id := ""
  tags := []
  alert_type_id := ""
  schedule := []
  throttle := ""
  notify_when := ""
  enabled := true
  consumer := ""
  params := []
  actions := []

/-- An alert as the server may return it for the sample configuration. -/
def sampleAlert : Alert where
  Name := "terraform-test"
  Tags := ["terraform"]
  AlertTypeID := ".index-threshold"
  Schedule := ⟨"1m"⟩
  Throttle := "5m"
  NotifyWhen := "onActionGroupChange"
  Enabled := true
  Consumer := "alerts"
  Params := [("index", .str "logs")]
  Actions := []

/-- The panic of `d.Get("schedule").(*schema.Set)`: under the schema the
attribute is a list, so the value is a `[]interface{}`. -/
def scheduleAssertionPanic : String :=
  "interface conversion: interface {} is []interface {}, not *schema.Set"

/-! ## Facts about the template expansion -/

theorem expand_post (id : String) :
    uritemplatesExpand "api/alerts/alert" [("id", id)] = .ok "api/alerts/alert" := by
  rfl

theorem expand_id (id : String) :
    uritemplatesExpand "/api/alerts/alert/{id}" [("id", id)]
      = .ok ("/api/alerts/alert/" ++ escape id) := by
  have h : (escape id).toList ++ [] = (escape id).toList := List.append_nil _
  show Except.ok (String.mk ("/api/alerts/alert/".toList ++ ((escape id).toList ++ []))) = _
  rw [h]
  rfl

/-! ## The attribute store and the forward mapping -/

theorem get_space_id (d : ResourceData) : d.Get "space_id" = .str d.space_id := rfl

theorem get_schedule (d : ResourceData) :
    d.Get "schedule" = .list (d.schedule.map scheduleEntry) := rfl

theorem get_tags (d : ResourceData) : d.Get "tags" = .set (d.tags.map .str) := rfl

theorem get_has_schema_type (d : ResourceData) (key : String)
    (h : key ∈ ["name", "space_id", "tags", "alert_type_id", "schedule", "throttle",
      "notify_when", "enabled", "consumer", "params", "actions"]) :
    (schemaType key).map ValueType.goType = some (d.Get key).goType := by
  simp only [List.mem_cons, List.mem_singleton, List.not_mem_nil, or_false] at h
  rcases h with rfl | rfl | rfl | rfl | rfl | rfl | rfl | rfl | rfl | rfl | rfl <;> rfl

theorem forwardMapping_panics (lib : Lib) (d : ResourceData) :
    forwardMapping lib d = .panic scheduleAssertionPanic := rfl

theorem post_eq (lib : Lib) (d : ResourceData) (conf : ProviderConf) :
    resourceElasticsearchPostKibanaAlert lib d conf
      = match getKibanaClient conf with
        | .error err => ⟨.ret (some err), d, []⟩
        | .ok _ => ⟨.panic scheduleAssertionPanic, d, []⟩ := by
  unfold resourceElasticsearchPostKibanaAlert
  rw [get_space_id, forwardMapping_panics]
  cases getKibanaClient conf <;> rfl

theorem create_eq (lib : Lib) (d : ResourceData) (conf : ProviderConf) :
    resourceElasticsearchKibanaAlertCreate lib d conf
      = match getKibanaClient conf with
        | .error err => ⟨.ret (some err), d, []⟩
        | .ok _ => ⟨.panic scheduleAssertionPanic, d, []⟩ := by
  simp only [resourceElasticsearchKibanaAlertCreate, post_eq]
  cases getKibanaClient conf <;> rfl

theorem create_keeps_data (lib : Lib) (d : ResourceData) (conf : ProviderConf) :
    (resourceElasticsearchKibanaAlertCreate lib d conf).d = d := by
  rw [create_eq]
  cases getKibanaClient conf <;> rfl

theorem create_never_succeeds (lib : Lib) (d : ResourceData) (conf : ProviderConf) :
    (resourceElasticsearchKibanaAlertCreate lib d conf).result ≠ .ret none := by
  rw [create_eq]
  cases getKibanaClient conf <;> intro h <;> cases h

theorem create_no_round_trip (lib : Lib) (d : ResourceData) (conf : ProviderConf) :
    (resourceElasticsearchKibanaAlertCreate lib d conf).trace = [] := by
  rw [create_eq]
  cases getKibanaClient conf <;> rfl


/-! ## The version gate below 7.11.0 -/

theorem read_below_minimum (lib : Lib) (d : ResourceData) (conf : ProviderConf)
    (client : Elastic7Client) (v : Version) (sp : String)
    (hs : d.Get "space_id" = .str sp)
    (hc : getKibanaClient conf = .ok (.elastic7 client))
    (hv : elastic7GetVersion client = .ok v)
    (hlt : v.LessThan minimalKibanaVersion = true) :
    resourceElasticsearchKibanaAlertRead lib d conf
      = ⟨.ret (some (.unsupportedVersion "Kibana" v)), d, [.versionCheck]⟩ := by
  simp [resourceElasticsearchKibanaAlertRead, readSwitch, hs, hc, hv, hlt, Value.asString,
    IsNotFound]

theorem delete_below_minimum (d : ResourceData) (conf : ProviderConf)
    (client : Elastic7Client) (v : Version) (sp : String)
    (hs : d.Get "space_id" = .str sp)
    (hc : getKibanaClient conf = .ok (.elastic7 client))
    (hv : elastic7GetVersion client = .ok v)
    (hlt : v.LessThan minimalKibanaVersion = true) :
    resourceElasticsearchKibanaAlertDelete d conf
      = ⟨.ret (some (.unsupportedVersion "ElasticSearch" v)), d, [.versionCheck]⟩ := by
  simp [resourceElasticsearchKibanaAlertDelete, hs, hc, hv, hlt, Value.asString]

/-- The claim C1 fails as stated: against a server at 7.10.2, Update returns no
error at all and makes no round-trip; Create ends in the panic of its forward
mapping before it reaches the version gate, so it does not return the
unsupported-version error either. -/
theorem C1_update_and_create_below_minimum :
    elastic7GetVersion oldServer = .ok ⟨7, 10, 2⟩
    ∧ Version.LessThan ⟨7, 10, 2⟩ minimalKibanaVersion = true
    ∧ resourceElasticsearchKibanaAlertUpdate existingData (confOf oldServer)
        = ⟨.ret none, existingData, []⟩
    ∧ (resourceElasticsearchKibanaAlertUpdate existingData
        (confOf oldServer)).unsupportedVersion = false
    ∧ resourceElasticsearchKibanaAlertCreate sampleLib sampleData (confOf oldServer)
        = ⟨.panic scheduleAssertionPanic, sampleData, []⟩
    ∧ (resourceElasticsearchKibanaAlertCreate sampleLib sampleData
        (confOf oldServer)).unsupportedVersion = false := by
  refine ⟨rfl, rfl, rfl, rfl, rfl, rfl⟩

/-- C1, amended: when the server reports a version strictly below 7.11.0, Read
and Delete return the unsupported-version error, leave the resource data
untouched and make the version round-trip only, with no request to the alert
endpoints; Update returns no error and makes no round-trip. -/
theorem C1_below_minimum_version (lib : Lib) (d : ResourceData) (conf : ProviderConf)
    (client : Elastic7Client) (v : Version) (sp : String)
    (hs : d.Get "space_id" = .str sp)
    (hc : getKibanaClient conf = .ok (.elastic7 client))
    (hv : elastic7GetVersion client = .ok v)
    (hlt : v.LessThan minimalKibanaVersion = true) :
    (resourceElasticsearchKibanaAlertRead lib d conf
        = ⟨.ret (some (.unsupportedVersion "Kibana" v)), d, [.versionCheck]⟩
      ∧ (resourceElasticsearchKibanaAlertRead lib d conf).unsupportedVersion = true
      ∧ alertRequests (resourceElasticsearchKibanaAlertRead lib d conf).trace = [])
    ∧ (resourceElasticsearchKibanaAlertDelete d conf
        = ⟨.ret (some (.unsupportedVersion "ElasticSearch" v)), d, [.versionCheck]⟩
      ∧ (resourceElasticsearchKibanaAlertDelete d conf).unsupportedVersion = true
      ∧ alertRequests (resourceElasticsearchKibanaAlertDelete d conf).trace = [])
    ∧ resourceElasticsearchKibanaAlertUpdate d conf = ⟨.ret none, d, []⟩ := by
  refine ⟨?_, ?_, rfl⟩
  · rw [read_below_minimum lib d conf client v sp hs hc hv hlt]
    exact ⟨rfl, rfl, rfl⟩
  · rw [delete_below_minimum d conf client v sp hs hc hv hlt]
    exact ⟨rfl, rfl, rfl⟩

/-- The amended C1 at a server reporting 7.10.2 and the resource `alert-1`. -/
theorem C1_below_minimum_version_witness :
    (resourceElasticsearchKibanaAlertRead sampleLib existingData (confOf oldServer)
        = ⟨.ret (some (.unsupportedVersion "Kibana" ⟨7, 10, 2⟩)), existingData,
            [.versionCheck]⟩)
    ∧ (resourceElasticsearchKibanaAlertDelete existingData (confOf oldServer)
        = ⟨.ret (some (.unsupportedVersion "ElasticSearch" ⟨7, 10, 2⟩)), existingData,
            [.versionCheck]⟩)
    ∧ resourceElasticsearchKibanaAlertUpdate existingData (confOf oldServer)
        = ⟨.ret none, existingData, []⟩ :=
  have h := C1_below_minimum_version sampleLib existingData (confOf oldServer) oldServer
    ⟨7, 10, 2⟩ "default" rfl rfl rfl rfl
  ⟨h.1.1, h.2.1.1, h.2.2⟩

/-! ## Read after the type switch -/

theorem read_of_switch_error (lib : Lib) (d : ResourceData) (conf : ProviderConf)
    (esClient : Client) (sp : String) (alert : Alert) (e : GoError) (t : List Event)
    (hs : d.Get "space_id" = .str sp)
    (hc : getKibanaClient conf = .ok esClient)
    (hsw : readSwitch lib esClient d.Id sp = (.ret (alert, some e), t)) :
    resourceElasticsearchKibanaAlertRead lib d conf
      = if IsNotFound e = true then ⟨.ret none, d.SetId "", t⟩ else ⟨.ret (some e), d, t⟩ := by
  simp only [resourceElasticsearchKibanaAlertRead, hs, hc, Value.asString]
  rw [hsw]

theorem delete_of_gate_passed (d : ResourceData) (conf : ProviderConf)
    (client : Elastic7Client) (v : Version) (sp : String)
    (hs : d.Get "space_id" = .str sp)
    (hc : getKibanaClient conf = .ok (.elastic7 client))
    (hv : elastic7GetVersion client = .ok v)
    (hge : v.LessThan minimalKibanaVersion = false) :
    resourceElasticsearchKibanaAlertDelete d conf
      = match kibanaDeleteAlert client d.Id sp with
        | (some err, t) => ⟨.ret (some err), d, .versionCheck :: t⟩
        | (none, t) => ⟨.ret none, d.SetId "", .versionCheck :: t⟩ := by
  simp [resourceElasticsearchKibanaAlertDelete, hs, hc, hv, hge, Value.asString]

/-! ## Read and the errors of `kibanaGetAlert` -/

/-- C2: with a server at or above 7.11.0, when `kibanaGetAlert` returns an
error that is classified as not-found, Read returns no error and the stored
identity becomes the empty string; when it returns any other error, Read
returns that very error and the resource data (stored identity included) is
unchanged. -/
theorem C2_read_get_alert_error (lib : Lib) (d : ResourceData) (conf : ProviderConf)
    (client : Elastic7Client) (v : Version) (sp : String) (alert : Alert) (e : GoError)
    (hs : d.Get "space_id" = .str sp)
    (hc : getKibanaClient conf = .ok (.elastic7 client))
    (hv : elastic7GetVersion client = .ok v)
    (hge : v.LessThan minimalKibanaVersion = false)
    (hget : (kibanaGetAlert lib client d.Id sp).1 = .ret (alert, some e)) :
    (IsNotFound e = true →
      (resourceElasticsearchKibanaAlertRead lib d conf).result = .ret none
      ∧ (resourceElasticsearchKibanaAlertRead lib d conf).d.Id = "")
    ∧ (IsNotFound e = false →
      (resourceElasticsearchKibanaAlertRead lib d conf).result = .ret (some e)
      ∧ (resourceElasticsearchKibanaAlertRead lib d conf).d = d) := by
  have hsw : readSwitch lib (.elastic7 client) d.Id sp
      = (.ret (alert, some e), .versionCheck :: (kibanaGetAlert lib client d.Id sp).2) := by
    simp only [readSwitch, hv, hge]
    rw [← hget]
    rfl
  have hread := read_of_switch_error lib d conf (.elastic7 client) sp alert e _ hs hc hsw
  constructor
  · intro hnf
    rw [hread, if_pos hnf]
    exact ⟨rfl, rfl⟩
  · intro hnf
    rw [hread, if_neg (by simp [hnf])]
    exact ⟨rfl, rfl⟩

/-- C2 at a server that answers the GET with status 404: Read of the resource
`alert-1` returns no error and clears the identity. -/
theorem C2_read_get_alert_error_witness :
    (resourceElasticsearchKibanaAlertRead sampleLib existingData (confOf missingServer)).result
        = .ret none
    ∧ (resourceElasticsearchKibanaAlertRead sampleLib existingData
        (confOf missingServer)).d.Id = "" :=
  (C2_read_get_alert_error sampleLib existingData (confOf missingServer) missingServer
    ⟨7, 11, 0⟩ "default" Alert.zero (.elastic 404 "Not Found") rfl rfl rfl rfl rfl).1 rfl

/-! ## Delete -/

/-- C8: Delete on a resource whose `space_id` is a string never panics and
clears the stored identity exactly when it succeeds.  If the gate passes and
`kibanaDeleteAlert` returns no error, Delete returns no error and the stored
identity is the empty string; if obtaining the client fails, if the version
fetch fails, if the version is below 7.11.0, if the client is of another
variant, or if `kibanaDeleteAlert` returns an error, Delete returns that
error and the resource data is unchanged. -/
theorem C8_delete_clears_identity_on_success (d : ResourceData) (conf : ProviderConf)
    (sp : String) (hs : d.Get "space_id" = .str sp) :
    (∀ client v, getKibanaClient conf = .ok (.elastic7 client) →
        elastic7GetVersion client = .ok v → v.LessThan minimalKibanaVersion = false →
        (kibanaDeleteAlert client d.Id sp).1 = none →
        (resourceElasticsearchKibanaAlertDelete d conf).result = .ret none
        ∧ (resourceElasticsearchKibanaAlertDelete d conf).d.Id = "")
    ∧ (∀ e, getKibanaClient conf = .error e →
        (resourceElasticsearchKibanaAlertDelete d conf).result = .ret (some e)
        ∧ (resourceElasticsearchKibanaAlertDelete d conf).d = d)
    ∧ (∀ client e, getKibanaClient conf = .ok (.elastic7 client) →
        elastic7GetVersion client = .error e →
        (resourceElasticsearchKibanaAlertDelete d conf).result = .ret (some e)
        ∧ (resourceElasticsearchKibanaAlertDelete d conf).d = d)
    ∧ (∀ client v, getKibanaClient conf = .ok (.elastic7 client) →
        elastic7GetVersion client = .ok v → v.LessThan minimalKibanaVersion = true →
        (resourceElasticsearchKibanaAlertDelete d conf).result
          = .ret (some (.unsupportedVersion "ElasticSearch" v))
        ∧ (resourceElasticsearchKibanaAlertDelete d conf).d = d)
    ∧ (getKibanaClient conf = .ok .other →
        (resourceElasticsearchKibanaAlertDelete d conf).result
          = .ret (some (.clientTypeUnsupported "ElasticSearch"))
        ∧ (resourceElasticsearchKibanaAlertDelete d conf).d = d)
    ∧ (∀ client v e, getKibanaClient conf = .ok (.elastic7 client) →
        elastic7GetVersion client = .ok v → v.LessThan minimalKibanaVersion = false →
        (kibanaDeleteAlert client d.Id sp).1 = some e →
        (resourceElasticsearchKibanaAlertDelete d conf).result = .ret (some e)
        ∧ (resourceElasticsearchKibanaAlertDelete d conf).d = d)
    ∧ ((resourceElasticsearchKibanaAlertDelete d conf).result = .ret none
        ∧ (resourceElasticsearchKibanaAlertDelete d conf).d = d.SetId ""
      ∨ ∃ e, (resourceElasticsearchKibanaAlertDelete d conf).result = .ret (some e)
        ∧ (resourceElasticsearchKibanaAlertDelete d conf).d = d) := by
  refine ⟨?_, ?_, ?_, ?_, ?_, ?_, ?_⟩
  · intro client v hc hv hge hdel
    rw [delete_of_gate_passed d conf client v sp hs hc hv hge]
    rcases hp : kibanaDeleteAlert client d.Id sp with ⟨_ | e, t⟩
    · exact ⟨rfl, rfl⟩
    · rw [hp] at hdel
      cases hdel
  · intro e hc
    simp [resourceElasticsearchKibanaAlertDelete, hs, hc, Value.asString]
  · intro client e hc hv
    simp [resourceElasticsearchKibanaAlertDelete, hs, hc, hv, Value.asString]
  · intro client v hc hv hlt
    simp [resourceElasticsearchKibanaAlertDelete, hs, hc, hv, hlt, Value.asString]
  · intro hc
    simp [resourceElasticsearchKibanaAlertDelete, hs, hc, Value.asString]
  · intro client v e hc hv hge hdel
    rw [delete_of_gate_passed d conf client v sp hs hc hv hge]
    rcases hp : kibanaDeleteAlert client d.Id sp with ⟨_ | e2, t⟩
    · rw [hp] at hdel
      cases hdel
    · rw [hp] at hdel
      cases hdel
      exact ⟨rfl, rfl⟩
  · cases hc : getKibanaClient conf with
    | error e =>
      exact Or.inr ⟨e, by
        simp [resourceElasticsearchKibanaAlertDelete, hs, hc, Value.asString]⟩
    | ok esClient =>
      cases esClient with
      | other =>
        exact Or.inr ⟨.clientTypeUnsupported "ElasticSearch", by
          simp [resourceElasticsearchKibanaAlertDelete, hs, hc, Value.asString]⟩
      | elastic7 client =>
        cases hv : elastic7GetVersion client with
        | error e =>
          exact Or.inr ⟨e, by
            simp [resourceElasticsearchKibanaAlertDelete, hs, hc, hv, Value.asString]⟩
        | ok v =>
          cases hlt : v.LessThan minimalKibanaVersion with
          | true =>
            exact Or.inr ⟨.unsupportedVersion "ElasticSearch" v, by
              simp [resourceElasticsearchKibanaAlertDelete, hs, hc, hv, hlt, Value.asString]⟩
          | false =>
            rw [delete_of_gate_passed d conf client v sp hs hc hv hlt]
            rcases hdel : kibanaDeleteAlert client d.Id sp with ⟨_ | e, t⟩
            · exact Or.inl ⟨rfl, rfl⟩
            · exact Or.inr ⟨e, rfl, rfl⟩

/-- C8 at a healthy server: deleting `alert-1` returns no error and leaves the
identity empty. -/
theorem C8_delete_clears_identity_on_success_witness :
    (resourceElasticsearchKibanaAlertDelete existingData (confOf healthyServer)).result
        = .ret none
    ∧ (resourceElasticsearchKibanaAlertDelete existingData (confOf healthyServer)).d.Id = "" :=
  (C8_delete_clears_identity_on_success existingData (confOf healthyServer) "default" rfl).1
    healthyServer ⟨7, 11, 0⟩ rfl rfl rfl rfl

/-! ## The HTTP operations -/

/-- C9: `space_id` does not influence `kibanaGetAlert`, `kibanaPostAlert` or
`kibanaDeleteAlert`: with the same client and the other arguments equal, two
calls that differ only in `space_id` issue the same requests and return the
same result. -/
theorem C9_space_id_not_used (lib : Lib) (client : Elastic7Client) (id s₁ s₂ : String)
    (alert : Alert) :
    kibanaGetAlert lib client id s₁ = kibanaGetAlert lib client id s₂
    ∧ kibanaPostAlert lib client id s₁ alert = kibanaPostAlert lib client id s₂ alert
    ∧ kibanaDeleteAlert client id s₁ = kibanaDeleteAlert client id s₂ :=
  ⟨rfl, rfl, rfl⟩

theorem kibanaGetAlert_error_with_response (lib : Lib) (client : Elastic7Client)
    (id sp : String) (res : Response) (e : GoError)
    (h : client.PerformRequest ⟨"GET", "/api/alerts/alert/" ++ escape id, ""⟩
      = (some res, some e)) :
    kibanaGetAlert lib client id sp
      = (.ret (Alert.zero, some e),
          [.request ⟨"GET", "/api/alerts/alert/" ++ escape id, ""⟩]) := by
  simp only [kibanaGetAlert, expand_id]
  rw [h]

theorem kibanaGetAlert_nil_response (lib : Lib) (client : Elastic7Client)
    (id sp : String) (err : Option GoError)
    (h : client.PerformRequest ⟨"GET", "/api/alerts/alert/" ++ escape id, ""⟩ = (none, err)) :
    kibanaGetAlert lib client id sp
      = (.panic "runtime error: invalid memory address or nil pointer dereference",
          [.request ⟨"GET", "/api/alerts/alert/" ++ escape id, ""⟩]) := by
  simp only [kibanaGetAlert, expand_id]
  rw [h]

/-- C10 does not hold of the code: when the client returns the error
`connection refused` and no response object, `kibanaGetAlert` panics on the
nil response instead of returning the error. -/
theorem C10_get_alert_nil_response_panics :
    unreachableServer.PerformRequest ⟨"GET", "/api/alerts/alert/alert-1", ""⟩
        = (none, some (.other "connection refused"))
    ∧ kibanaGetAlert sampleLib unreachableServer "alert-1" "default"
        = (.panic "runtime error: invalid memory address or nil pointer dereference",
            [.request ⟨"GET", "/api/alerts/alert/alert-1", ""⟩])
    ∧ (resourceElasticsearchKibanaAlertRead sampleLib existingData
        (confOf unreachableServer)).result
        = .panic "runtime error: invalid memory address or nil pointer dereference" := by
  refine ⟨rfl, ?_, ?_⟩
  · rw [kibanaGetAlert_nil_response sampleLib unreachableServer "alert-1" "default"
      (some (.other "connection refused")) rfl]
    rfl
  · rfl

/-! ## Create -/

/-! ## Create -/

/-- C3 does not hold of the code: on the acceptance test's configuration, whose
schedule collection is empty, Create does not return an error value; it
panics in the first statement of the forward mapping, before any round-trip.
The value is an empty `[]interface{}`, which the assertion to `*schema.Set`
rejects; the `List()[0]` that follows has no length check either. -/
theorem C3_empty_schedule_panics :
    testConfigData.Get "schedule" = .list []
    ∧ (∀ lib : Lib, resourceElasticsearchKibanaAlertCreate lib testConfigData
        (confOf healthyServer) = ⟨.panic scheduleAssertionPanic, testConfigData, []⟩)
    ∧ (∀ lib : Lib, resourceElasticsearchPostKibanaAlert lib testConfigData
        (confOf healthyServer) = ⟨.panic scheduleAssertionPanic, testConfigData, []⟩)
    ∧ index0 [] = .panic "runtime error: index out of range [0] with length 0" :=
  ⟨rfl, fun _ => rfl, fun _ => rfl, rfl⟩

/-- C4 does not hold of the code: Create never touches the resource data, so
the stored identity of a new resource is still the empty string after it,
however it ends; and it never ends in success.  On the acceptance test's
configuration against a healthy 7.11.0 server Create panics and the identity
is empty, where the test's existence check needs a created resource with a
non-empty ID. -/
theorem C4_create_leaves_identity_empty :
    (∀ (lib : Lib) (d : ResourceData) (conf : ProviderConf),
        (resourceElasticsearchKibanaAlertCreate lib d conf).d.Id = d.Id)
    ∧ (∀ (lib : Lib) (d : ResourceData) (conf : ProviderConf),
        (resourceElasticsearchKibanaAlertCreate lib d conf).result ≠ .ret none)
    ∧ testConfigData.Id = ""
    ∧ (∀ lib : Lib, (resourceElasticsearchKibanaAlertCreate lib testConfigData
        (confOf healthyServer)).result = .panic scheduleAssertionPanic)
    ∧ (∀ lib : Lib, (resourceElasticsearchKibanaAlertCreate lib testConfigData
        (confOf healthyServer)).d.Id = "") :=
  ⟨fun lib d conf => by rw [create_keeps_data], create_never_succeeds, rfl,
    fun _ => rfl, fun _ => rfl⟩

theorem kibanaPostAlert_eq (lib : Lib) (client : Elastic7Client) (id sp : String)
    (alert : Alert) :
    kibanaPostAlert lib client id sp alert
      = match lib.jsonMarshal alert with
        | .error err => (some (.bodyError err), [])
        | .ok body =>
          ((client.PerformRequest ⟨"POST", "api/alerts/alert", body⟩).2,
            [.request ⟨"POST", "api/alerts/alert", body⟩]) := by
  simp only [kibanaPostAlert, expand_post]
  cases lib.jsonMarshal alert with
  | error err => rfl
  | ok body =>
    cases h : (client.PerformRequest ⟨"POST", "api/alerts/alert", body⟩).2 <;> simp [h]

/-- C5 does not hold of the code: Create of the configuration named
`terraform-test` (one schedule entry) against a 7.11.0 server makes no
round-trip at all, neither the version check nor a POST, because the forward
mapping panics first; and `kibanaPostAlert` itself, for every alert that
serializes, sends its one POST to the path `api/alerts/alert`, without the
leading slash. -/
theorem C5_create_posts_nothing_and_post_path_is_relative :
    sampleData.name = "terraform-test"
    ∧ sampleData.schedule = ["1m"]
    ∧ elastic7GetVersion healthyServer = .ok ⟨7, 11, 0⟩
    ∧ Version.LessThan ⟨7, 11, 0⟩ minimalKibanaVersion = false
    ∧ (∀ lib : Lib, resourceElasticsearchKibanaAlertCreate lib sampleData
        (confOf healthyServer) = ⟨.panic scheduleAssertionPanic, sampleData, []⟩)
    ∧ (∀ (lib : Lib) (client : Elastic7Client) (id sp : String) (alert : Alert),
        kibanaPostAlert lib client id sp alert
          = match lib.jsonMarshal alert with
            | .error err => (some (.bodyError err), [])
            | .ok body =>
              ((client.PerformRequest ⟨"POST", "api/alerts/alert", body⟩).2,
                [.request ⟨"POST", "api/alerts/alert", body⟩]))
    ∧ decide ("api/alerts/alert" = "/api/alerts/alert") = false :=
  ⟨rfl, rfl, rfl, rfl, fun _ => rfl, kibanaPostAlert_eq, by decide⟩

/-! ## Failure of the version fetch -/

theorem delete_gate_error (d : ResourceData) (conf : ProviderConf)
    (client : Elastic7Client) (e : GoError) (sp : String)
    (hs : d.Get "space_id" = .str sp)
    (hc : getKibanaClient conf = .ok (.elastic7 client))
    (hv : elastic7GetVersion client = .error e) :
    resourceElasticsearchKibanaAlertDelete d conf = ⟨.ret (some e), d, [.versionCheck]⟩ := by
  simp [resourceElasticsearchKibanaAlertDelete, hs, hc, hv, Value.asString]

theorem read_gate_error (lib : Lib) (d : ResourceData) (conf : ProviderConf)
    (client : Elastic7Client) (e : GoError) (sp : String)
    (hs : d.Get "space_id" = .str sp)
    (hc : getKibanaClient conf = .ok (.elastic7 client))
    (hv : elastic7GetVersion client = .error e) :
    resourceElasticsearchKibanaAlertRead lib d conf
      = if IsNotFound e = true then ⟨.ret none, d.SetId "", [.versionCheck]⟩
        else ⟨.ret (some e), d, [.versionCheck]⟩ := by
  apply read_of_switch_error lib d conf (.elastic7 client) sp Alert.zero e _ hs hc
  simp [readSwitch, hv]

/-- C7 does not hold of the code: when the version fetch fails with an error
classified as not-found, Delete returns that error and leaves the identity
alone, but Read returns no error and clears the stored identity `alert-1`;
no request reaches the alert endpoints.  Create does not get as far as the
version fetch: its forward mapping panics first. -/
theorem C7_read_swallows_not_found_gate_error :
    elastic7GetVersion versionlessServer = .error (.elastic 404 "Not Found")
    ∧ IsNotFound (.elastic 404 "Not Found") = true
    ∧ existingData.Id = "alert-1"
    ∧ resourceElasticsearchKibanaAlertRead sampleLib existingData (confOf versionlessServer)
        = ⟨.ret none, existingData.SetId "", [.versionCheck]⟩
    ∧ (resourceElasticsearchKibanaAlertRead sampleLib existingData
        (confOf versionlessServer)).d.Id = ""
    ∧ resourceElasticsearchKibanaAlertDelete existingData (confOf versionlessServer)
        = ⟨.ret (some (.elastic 404 "Not Found")), existingData, [.versionCheck]⟩
    ∧ resourceElasticsearchKibanaAlertCreate sampleLib existingData (confOf versionlessServer)
        = ⟨.panic scheduleAssertionPanic, existingData, []⟩ :=
  ⟨rfl, rfl, rfl, rfl, rfl, rfl, rfl⟩

/-! ## The two directions of the attribute mapping -/

theorem reverseMapping_eq (lib : Lib) (d : ResourceData) (alert : Alert) :
    reverseMapping lib d alert
      = { d := { d with
                  name := alert.Name
                  tags := lib.hashOrder alert.Tags
                  alert_type_id := alert.AlertTypeID }
          err := some (setError "schedule" (.schedule alert.Schedule)) } := rfl

theorem read_after_get (lib : Lib) (d : ResourceData) (conf : ProviderConf)
    (client : Elastic7Client) (v : Version) (alert : Alert)
    (hc : getKibanaClient conf = .ok (.elastic7 client))
    (hv : elastic7GetVersion client = .ok v)
    (hge : v.LessThan minimalKibanaVersion = false)
    (hget : (kibanaGetAlert lib client d.Id d.space_id).1 = .ret (alert, none)) :
    (resourceElasticsearchKibanaAlertRead lib d conf).result
        = .ret (some (setError "schedule" (.schedule alert.Schedule)))
    ∧ (resourceElasticsearchKibanaAlertRead lib d conf).d.Get "schedule" = d.Get "schedule" := by
  have hsw : readSwitch lib (.elastic7 client) d.Id d.space_id
      = (.ret (alert, none), .versionCheck :: (kibanaGetAlert lib client d.Id d.space_id).2) := by
    simp only [readSwitch, hv, hge]
    rw [← hget]
    rfl
  simp only [resourceElasticsearchKibanaAlertRead, get_space_id, hc, Value.asString]
  rw [hsw]
  exact ⟨rfl, rfl⟩

/-- C6 does not hold of the code: the forward mapping yields no alert for any
configuration, since its first statement asserts that the list `schedule` is
a `*schema.Set` and panics; and the reverse mapping, for every alert, stops
at `schedule` with the error `d.Set` returns for a `kibana.AlertSchedule`,
so that Read returns this error and schedule, throttle, notify_when,
enabled, consumer, params and actions are not written back.  Shown also on
the sample configuration, whose schedule holds exactly one entry. -/
theorem C6_round_trip_is_not_performed :
    (∀ (lib : Lib) (d : ResourceData), forwardMapping lib d = .panic scheduleAssertionPanic)
    ∧ (∀ (lib : Lib) (d : ResourceData) (alert : Alert),
        (reverseMapping lib d alert).err
            = some (setError "schedule" (.schedule alert.Schedule))
        ∧ (reverseMapping lib d alert).d.Get "schedule" = d.Get "schedule"
        ∧ (reverseMapping lib d alert).d.Get "throttle" = d.Get "throttle"
        ∧ (reverseMapping lib d alert).d.Get "notify_when" = d.Get "notify_when"
        ∧ (reverseMapping lib d alert).d.Get "enabled" = d.Get "enabled"
        ∧ (reverseMapping lib d alert).d.Get "consumer" = d.Get "consumer"
        ∧ (reverseMapping lib d alert).d.Get "params" = d.Get "params"
        ∧ (reverseMapping lib d alert).d.Get "actions" = d.Get "actions")
    ∧ sampleData.Get "schedule" = .list [.map [("interval", .str "1m")]]
    ∧ forwardMapping sampleLib sampleData = .panic scheduleAssertionPanic
    ∧ (reverseMapping sampleLib existingData sampleAlert).err
        = some (.other "schedule: cannot decode a value of type kibana.AlertSchedule") :=
  ⟨forwardMapping_panics,
    fun lib d alert => by
      rw [reverseMapping_eq]
      exact ⟨rfl, rfl, rfl, rfl, rfl, rfl, rfl, rfl⟩,
    rfl, rfl, rfl⟩

end KibanaAlert
